import Mathlib

/-!
# Verification of the rlgym-compat vehicle state estimator

Shallow embedding of `src/rlgym_compat/car.py` (the `Car` dataclass, its
`update`, `create_compat_car`, `reset_ball_touches` and `detect_hitbox`
operations) over exact rational arithmetic, together with theorems settling
the specification claims about it.

The modules `common_values.py` and `utils.py` are imported by `car.py` but are
not part of the given sources; the constants and the shape comparison they
provide are modelled from the specification (each such definition carries a
doc comment saying so).  The physics sub-object (`physics_object.py`, also not
under the given sources) is not involved in any claim below and is omitted
from the state.
-/

namespace RLGymCompat

/-- Modelled from the spec: the timing and rate constants that `car.py` imports
from `common_values.py`, a module not present in the given sources.  The spec
(§6) treats them as construction-time configuration: fixed tick duration,
ticks-per-second, minimum boost-engagement duration, handbrake rise/fall
rates, max double-jump delay.  All theorems below are parametric in this
record. -/
structure Consts where
  TICK_TIME : ℚ
  TICKS_PER_SECOND : ℚ
  MIN_BOOST_TIME : ℚ
  DOUBLEJUMP_MAX_DELAY : ℚ
  POWERSLIDE_RISE_RATE : ℚ
  POWERSLIDE_FALL_RATE : ℚ
deriving DecidableEq

/-- Modelled from the spec: concrete constant values used only to build
concrete witnesses.  Tick duration 1/120 s and 120 ticks per second come from
the spec §8 scenarios; the minimum boost-engagement duration 0.1 s and the
max double-jump delay 1.25 s are the values the source's own field comments
cite from `RLConst.h`; the handbrake rates are representative positive rates
(no claim depends on their values). -/
def defaultConsts : Consts :=
  { TICK_TIME := 1/120
    TICKS_PER_SECOND := 120
    MIN_BOOST_TIME := 1/10
    DOUBLEJUMP_MAX_DELAY := 5/4
    POWERSLIDE_RISE_RATE := 5
    POWERSLIDE_FALL_RATE := 2 }

/-- Modelled from the spec: team constants from the missing `common_values.py`
(blue team and orange team identifiers). -/
def BLUE_TEAM : ℕ := 0

/-- Modelled from the spec: see `BLUE_TEAM`. -/
def ORANGE_TEAM : ℕ := 1

/-- Modelled from the spec: hitbox category constants from the missing
`common_values.py`; six distinct known categories, `OCTANE` doubling as the
designated default category. -/
def OCTANE : ℕ := 0

/-- Modelled from the spec: see `OCTANE`. -/
def DOMINUS : ℕ := 1

/-- Modelled from the spec: see `OCTANE`. -/
def PLANK : ℕ := 2

/-- Modelled from the spec: see `OCTANE`. -/
def BREAKOUT : ℕ := 3

/-- Modelled from the spec: see `OCTANE`. -/
def HYBRID : ℕ := 4

/-- Modelled from the spec: see `OCTANE`. -/
def MERC : ℕ := 5

/-- The discrete air-state tag reported by the telemetry sample
(`rlbot.flat.AirState`). -/
inductive AirState where
  | OnGround
  | Jumping
  | InAir
  | Dodging
  | DoubleJumping
deriving DecidableEq

/-- A bounding-box shape (`rlbot.flat.BoxShape`): three lengths. -/
structure BoxShape where
  length : ℚ
  width : ℚ
  height : ℚ
deriving DecidableEq

/-- A 3-vector from the telemetry sample (`rlbot.flat.Vector3`). -/
structure Vec3 where
  x : ℚ
  y : ℚ
  z : ℚ
deriving DecidableEq

/-- Latest-touch record of the sample: the game-time timestamp of the most
recent ball touch. -/
structure Touch where
  game_seconds : ℚ
deriving DecidableEq

/-- The most-recent-input flags of the sample (`player_info.last_input`). -/
structure ControllerInput where
  jump : Bool
  boost : Bool
  handbrake : Bool
deriving DecidableEq

/-- The per-entity telemetry sample (`rlbot.flat.PlayerInfo`), restricted to
the fields `car.py` reads. -/
structure PlayerInfo where
  team : ℕ
  hitbox : BoxShape
  hitbox_offset : Vec3
  latest_touch : Option Touch
  demolished_timeout : ℚ
  is_supersonic : Bool
  boost : ℚ
  last_input : ControllerInput
  has_jumped : Bool
  has_double_jumped : Bool
  has_dodged : Bool
  dodge_elapsed : ℚ
  dodge_timeout : ℚ
  dodge_dir : Vec3
  air_state : AirState
deriving DecidableEq

/-- Match-level fields of the packet read by `create_compat_car`
(`packet.match_info`). -/
structure MatchInfo where
  seconds_elapsed : ℚ
  frame_num : ℤ
deriving DecidableEq

/-- The out-of-band override record (`ExtraPlayerInfo` in `extra_info.py`):
every field optional, absent meaning "no change". -/
structure ExtraPlayerInfo where
  wheels_with_contact : Option (Bool × Bool × Bool × Bool)
  handbrake : Option ℚ
  ball_touches : Option ℕ
  car_contact_id : Option ℕ
  car_contact_cooldown_timer : Option ℚ
  is_autoflipping : Option Bool
  autoflip_timer : Option ℚ
  autoflip_direction : Option ℚ
deriving DecidableEq

/-- The reconstructed per-entity state (`Car` dataclass in `car.py`),
excluding the physics sub-object which no claim touches. -/
structure Car where
  team_num : ℕ
  hitbox_type : ℕ
  ball_touches : ℕ
  bump_victim_id : Option ℕ
  demo_respawn_timer : ℚ
  wheels_with_contact : Bool × Bool × Bool × Bool
  supersonic_time : ℚ
  boost_amount : ℚ
  boost_active_time : ℚ
  handbrake : ℚ
  is_jumping : Bool
  has_jumped : Bool
  is_holding_jump : Bool
  jump_time : ℚ
  has_flipped : Bool
  has_double_jumped : Bool
  air_time_since_jump : ℚ
  flip_time : ℚ
  flip_torque_x : ℚ
  flip_torque_y : ℚ
  is_autoflipping : Bool
  autoflip_timer : ℚ
  autoflip_direction : ℚ
  prev_air_state : AirState
  game_seconds : ℚ
  cur_tick : ℤ
deriving DecidableEq

/-- Number of wheels in contact (`sum(self.wheels_with_contact)`). -/
def wheelCount : Bool × Bool × Bool × Bool → ℕ
  | (a, b, c, d) => a.toNat + b.toNat + c.toNat + d.toNat

/-- `Car.on_ground` property: at least 3 of the 4 wheels touch. -/
def Car.on_ground (car : Car) : Bool :=
  decide (3 ≤ wheelCount car.wheels_with_contact)

/-- Modelled from the spec: `compare_hitbox_shape` lives in `utils.py`, which
is not under the given sources.  Per the spec (§4.1) it checks that the
measured bounding box matches a known reference within a tolerance on all
three dimensions. -/
def compare_hitbox_shape (tol : ℚ) (shape : BoxShape) (l w h : ℚ) : Bool :=
  decide (|shape.length - l| ≤ tol) && decide (|shape.width - w| ≤ tol)
    && decide (|shape.height - h| ≤ tol)

/-- `Car.detect_hitbox` (car.py lines 159-173): first matching reference wins,
`OCTANE` is the fall-through default.  The offset argument is accepted and
ignored, as in the source. -/
def Car.detect_hitbox (tol : ℚ) (hitbox_shape : BoxShape) (_hitbox_offset : Vec3) : ℕ :=
  if compare_hitbox_shape tol hitbox_shape (11800738/100000) (8419941/100000) (36159073/1000000) then
    OCTANE
  else if compare_hitbox_shape tol hitbox_shape (12792678/100000) (8327995/100000) (313/10) then
    DOMINUS
  else if compare_hitbox_shape tol hitbox_shape (12881978/100000) (84670364/1000000) (29394402/1000000) then
    PLANK
  else if compare_hitbox_shape tol hitbox_shape (13149236/100000) (80521/1000) (303/10) then
    BREAKOUT
  else if compare_hitbox_shape tol hitbox_shape (12701919/100000) (8218787/100000) (34159073/1000000) then
    HYBRID
  else if compare_hitbox_shape tol hitbox_shape (12072023/100000) (7671031/100000) (41659073/1000000) then
    MERC
  else
    OCTANE

/-- `Car.reset_ball_touches` (car.py lines 216-217). -/
def Car.reset_ball_touches (car : Car) : Car :=
  { car with ball_touches := 0 }

/-- `Car.create_compat_car` (car.py lines 175-214), the attach operation,
restricted to the modelled fields. -/
def Car.create_compat_car (C : Consts) (tol : ℚ) (player_info : PlayerInfo)
    (match_info : MatchInfo) : Car :=
  let og : Bool := decide (player_info.air_state = AirState.OnGround)
  { team_num := if player_info.team = 0 then BLUE_TEAM else ORANGE_TEAM
    hitbox_type := Car.detect_hitbox tol player_info.hitbox player_info.hitbox_offset
    ball_touches := 0
    bump_victim_id := none
    demo_respawn_timer := 0
    wheels_with_contact := (og, og, og, og)
    supersonic_time := 0
    boost_amount := player_info.boost / 100
    boost_active_time := 0
    handbrake := 0
    is_jumping := false
    has_jumped := player_info.has_jumped
    is_holding_jump := player_info.last_input.jump
    jump_time := 0
    has_flipped := player_info.has_dodged
    has_double_jumped := player_info.has_double_jumped
    air_time_since_jump :=
      if player_info.dodge_timeout = -1 then 0
      else C.DOUBLEJUMP_MAX_DELAY - player_info.dodge_timeout
    flip_time := player_info.dodge_elapsed
    flip_torque_x := -player_info.dodge_dir.y
    flip_torque_y := player_info.dodge_dir.x
    is_autoflipping := false
    autoflip_timer := 0
    autoflip_direction := 0
    prev_air_state := player_info.air_state
    game_seconds := match_info.seconds_elapsed
    cur_tick := match_info.frame_num }

/-- The straight-line part of `Car.update` (car.py lines 226-282): delta
arithmetic, touch counting, demo timer, supersonic timer, boost timer,
handbrake ramp, flag copies, jump timer accumulation, and the dodge-timeout
derived air time. -/
def Car.updateBase (C : Consts) (car : Car) (player_info : PlayerInfo)
    (game_tick : ℤ) : Car :=
  let ticks_elapsed : ℤ := game_tick - car.cur_tick
  let time_elapsed : ℚ := C.TICK_TIME * (ticks_elapsed : ℚ)
  let game_seconds : ℚ := car.game_seconds + time_elapsed
  let ball_touches : ℕ :=
    match player_info.latest_touch with
    | some touch =>
        let ticks_since_touch : ℤ :=
          round ((game_seconds - touch.game_seconds) * C.TICKS_PER_SECOND)
        if ticks_since_touch < ticks_elapsed then car.ball_touches + 1
        else car.ball_touches
    | none => car.ball_touches
  let demo_respawn_timer : ℚ :=
    if player_info.demolished_timeout = -1 then 0 else player_info.demolished_timeout
  let supersonic_time : ℚ :=
    if player_info.is_supersonic then car.supersonic_time + time_elapsed else 0
  let boost_active_time : ℚ :=
    if 0 < car.boost_active_time then
      if player_info.last_input.boost = false ∧ C.MIN_BOOST_TIME ≤ car.boost_active_time then 0
      else car.boost_active_time + time_elapsed
    else
      if player_info.last_input.boost then time_elapsed else car.boost_active_time
  let handbrake : ℚ :=
    let h : ℚ :=
      if player_info.last_input.handbrake then
        car.handbrake + C.POWERSLIDE_RISE_RATE * time_elapsed
      else
        car.handbrake - C.POWERSLIDE_FALL_RATE * time_elapsed
    min 1 (max 0 h)
  let jump_time : ℚ :=
    if player_info.has_jumped || car.is_jumping then
      car.jump_time + C.TICK_TIME * (ticks_elapsed : ℚ)
    else car.jump_time
  let air_time_since_jump : ℚ :=
    if player_info.dodge_timeout = -1 then 0
    else C.DOUBLEJUMP_MAX_DELAY - player_info.dodge_timeout
  { car with
    ball_touches := ball_touches
    demo_respawn_timer := demo_respawn_timer
    supersonic_time := supersonic_time
    boost_amount := player_info.boost / 100
    boost_active_time := boost_active_time
    handbrake := handbrake
    is_holding_jump := player_info.last_input.jump
    has_jumped := player_info.has_jumped
    has_double_jumped := player_info.has_double_jumped
    has_flipped := player_info.has_dodged
    flip_time := player_info.dodge_elapsed
    flip_torque_x := -player_info.dodge_dir.y
    flip_torque_y := player_info.dodge_dir.x
    jump_time := jump_time
    air_time_since_jump := air_time_since_jump
    game_seconds := game_seconds
    cur_tick := game_tick }

/-- The discrete air-state transition of `Car.update` (car.py lines 284-303).
`prev` is the air-state recorded at the previous update, `tag` the sample's
state.  The original assigns `on_ground`, whose setter writes the same boolean
to all four wheel-contact flags. -/
def Car.airStateStep (C : Consts) (base : Car) (prev tag : AirState) : Car :=
  match tag with
  | AirState.OnGround =>
      { base with
        wheels_with_contact := (true, true, true, true)
        is_jumping := false
        air_time_since_jump := 0 }
  | AirState.Jumping =>
      let jt : ℚ := if prev = AirState.OnGround then 0 else base.jump_time
      let og : Bool := decide (jt ≤ 6 * C.TICK_TIME)
      { base with
        jump_time := jt
        wheels_with_contact := (og, og, og, og)
        is_jumping := true }
  | AirState.InAir =>
      { base with
        wheels_with_contact := (false, false, false, false)
        is_jumping := false }
  | AirState.Dodging =>
      { base with
        wheels_with_contact := (false, false, false, false)
        is_jumping := false }
  | AirState.DoubleJumping =>
      { base with
        wheels_with_contact := (false, false, false, false)
        is_jumping := false }

/-- The override application of `Car.update` (car.py lines 309-330): a chain
of "assign if the field is present" statements, each touching one field. -/
def Car.applyExtraChain (extra : ExtraPlayerInfo) (stepped : Car) : Car :=
  let c1 : Car :=
    match extra.wheels_with_contact with
    | some w => { stepped with wheels_with_contact := w }
    | none => stepped
  let c2 : Car :=
    match extra.handbrake with
    | some h => { c1 with handbrake := h }
    | none => c1
  let c3 : Car :=
    match extra.ball_touches with
    | some b => { c2 with ball_touches := b }
    | none => c2
  let c4 : Car :=
    match extra.car_contact_id, extra.car_contact_cooldown_timer with
    | some cid, some ct =>
        { c3 with bump_victim_id := if 0 < ct then some cid else none }
    | _, _ => c3
  let c5 : Car :=
    match extra.is_autoflipping with
    | some b => { c4 with is_autoflipping := b }
    | none => c4
  let c6 : Car :=
    match extra.autoflip_timer with
    | some t => { c5 with autoflip_timer := t }
    | none => c5
  match extra.autoflip_direction with
  | some d => { c6 with autoflip_direction := d }
  | none => c6

/-- `Car.update` (car.py lines 219-332): one atomic state transition consuming
a telemetry sample, the new tick index, and the optional override record.  The
physics write-through (lines 305-306) concerns only the omitted physics
sub-object. -/
def Car.update (C : Consts) (car : Car) (player_info : PlayerInfo) (game_tick : ℤ)
    (extra_player_info : Option ExtraPlayerInfo) : Car :=
  let base : Car := Car.updateBase C car player_info game_tick
  let stepped : Car := Car.airStateStep C base car.prev_air_state player_info.air_state
  let overridden : Car :=
    match extra_player_info with
    | none => stepped
    | some extra => Car.applyExtraChain extra stepped
  { overridden with prev_air_state := player_info.air_state }

/-- Folding `Car.update` over a sequence of samples (no override supplied). -/
def Car.updates (C : Consts) (car : Car) : List (PlayerInfo × ℤ) → Car
  | [] => car
  | (pi, t) :: rest => Car.updates C (Car.update C car pi t none) rest

/-- The override semantics as the spec words it (§4.3 step 12): a sparse,
field-by-field patch — each present field overwrites the computed value, the
bump-victim id is cleared when the supplied cooldown is not positive, and each
absent field leaves the computed value untouched.  Stated independently of the
source's sequential assignment chain, to be compared with it. -/
def specApplyOverride (extra : ExtraPlayerInfo) (computed : Car) : Car :=
  { computed with
    wheels_with_contact := extra.wheels_with_contact.getD computed.wheels_with_contact
    handbrake := extra.handbrake.getD computed.handbrake
    ball_touches := extra.ball_touches.getD computed.ball_touches
    bump_victim_id :=
      match extra.car_contact_id, extra.car_contact_cooldown_timer with
      | some cid, some ct => if 0 < ct then some cid else none
      | _, _ => computed.bump_victim_id
    is_autoflipping := extra.is_autoflipping.getD computed.is_autoflipping
    autoflip_timer := extra.autoflip_timer.getD computed.autoflip_timer
    autoflip_direction := extra.autoflip_direction.getD computed.autoflip_direction }

/-- The fixed reference table of the hitbox classifier, in source order
(car.py lines 161-172): category and reference length/width/height. -/
def hitboxReferences : List (ℕ × ℚ × ℚ × ℚ) :=
  [(OCTANE, 11800738/100000, 8419941/100000, 36159073/1000000),
   (DOMINUS, 12792678/100000, 8327995/100000, 313/10),
   (PLANK, 12881978/100000, 84670364/1000000, 29394402/1000000),
   (BREAKOUT, 13149236/100000, 80521/1000, 303/10),
   (HYBRID, 12701919/100000, 8218787/100000, 34159073/1000000),
   (MERC, 12072023/100000, 7671031/100000, 41659073/1000000)]

/-- The hitbox classifier as the spec words it (§4.1): the first listed
category whose reference dimensions all match the measured shape within the
tolerance; the designated default (`OCTANE`) when none matches.  Stated
independently of the source's if-chain, to be compared with it. -/
def specClassifyHitbox (tol : ℚ) (shape : BoxShape) : ℕ :=
  match hitboxReferences.find?
      (fun r => compare_hitbox_shape tol shape r.2.1 r.2.2.1 r.2.2.2) with
  | some r => r.1
  | none => OCTANE

/-- The wheel-contact field of an optional override record: `none` when no
override record is supplied or when the record leaves the field absent. -/
def optWheels : Option ExtraPlayerInfo → Option (Bool × Bool × Bool × Bool)
  | none => none
  | some e => e.wheels_with_contact

/-! ### Concrete sample data

Concrete samples and states used by the witness and counterexample
theorems below. -/

/-- A neutral controller input. -/
def inputNone : ControllerInput := ⟨false, false, false⟩

/-- A ground sample: on the ground, no touch, no inputs. -/
def groundSample : PlayerInfo :=
  { team := 0
    hitbox := ⟨118, 84, 36⟩
    hitbox_offset := ⟨0, 0, 0⟩
    latest_touch := none
    demolished_timeout := -1
    is_supersonic := false
    boost := 100
    last_input := inputNone
    has_jumped := false
    has_double_jumped := false
    has_dodged := false
    dodge_elapsed := 0
    dodge_timeout := -1
    dodge_dir := ⟨0, 0, 0⟩
    air_state := AirState.OnGround }

/-- A sample reporting the `Jumping` air state with `has_jumped` set. -/
def jumpSample : PlayerInfo :=
  { groundSample with air_state := AirState.Jumping, has_jumped := true }

/-- A sample reporting the `OnGround` air state with `has_jumped` still set. -/
def groundJumpedSample : PlayerInfo :=
  { groundSample with has_jumped := true }

/-- A ground sample reporting a latest ball touch at game time 1/120 s. -/
def touchSample : PlayerInfo :=
  { groundSample with latest_touch := some ⟨1/120⟩ }

/-- A ground sample reporting the supersonic flag. -/
def supersonicSample : PlayerInfo :=
  { groundSample with is_supersonic := true }

/-- A ground sample whose input requests boost. -/
def boostSample : PlayerInfo :=
  { groundSample with last_input := ⟨false, true, false⟩ }

/-- The state attached from `groundSample` at tick 0, game time 0. -/
def attachCar : Car :=
  Car.create_compat_car defaultConsts 1 groundSample ⟨0, 0⟩

/-- `attachCar` after one `Jumping` update at tick 1. -/
def carJump1 : Car := Car.update defaultConsts attachCar jumpSample 1 none

/-- `carJump1` after an `OnGround` update (with `has_jumped` still reported)
at tick 2. -/
def carJump2 : Car := Car.update defaultConsts carJump1 groundJumpedSample 2 none

/-- `carJump2` after a second `Jumping` update at tick 3. -/
def carJump3 : Car := Car.update defaultConsts carJump2 jumpSample 3 none

/-- `attachCar` with a running boost-active timer of 1 s. -/
def carBoost : Car := { attachCar with boost_active_time := 1 }

/-- An override record that sets every field. -/
def extraFull : ExtraPlayerInfo :=
  { wheels_with_contact := some (true, true, true, false)
    handbrake := some (1/2)
    ball_touches := some 7
    car_contact_id := some 5
    car_contact_cooldown_timer := some (3/10)
    is_autoflipping := some true
    autoflip_timer := some (2/10)
    autoflip_direction := some (-1) }

/-! ### Helper lemmas -/

lemma applyExtraChain_eq_spec (e : ExtraPlayerInfo) (c : Car) :
    Car.applyExtraChain e c = specApplyOverride e c := by
  obtain ⟨w, h, b, cid, ct, af, t, d⟩ := e
  cases w <;> cases h <;> cases b <;> cases cid <;> cases ct <;> cases af <;> cases t <;>
    cases d <;> rfl

@[simp] lemma airStateStep_ball_touches (C : Consts) (b : Car) (p tag : AirState) :
    (Car.airStateStep C b p tag).ball_touches = b.ball_touches := by
  cases tag <;> rfl

@[simp] lemma airStateStep_supersonic_time (C : Consts) (b : Car) (p tag : AirState) :
    (Car.airStateStep C b p tag).supersonic_time = b.supersonic_time := by
  cases tag <;> rfl

@[simp] lemma airStateStep_boost_active_time (C : Consts) (b : Car) (p tag : AirState) :
    (Car.airStateStep C b p tag).boost_active_time = b.boost_active_time := by
  cases tag <;> rfl

@[simp] lemma airStateStep_handbrake (C : Consts) (b : Car) (p tag : AirState) :
    (Car.airStateStep C b p tag).handbrake = b.handbrake := by
  cases tag <;> rfl

@[simp] lemma airStateStep_has_jumped (C : Consts) (b : Car) (p tag : AirState) :
    (Car.airStateStep C b p tag).has_jumped = b.has_jumped := by
  cases tag <;> rfl

@[simp] lemma airStateStep_game_seconds (C : Consts) (b : Car) (p tag : AirState) :
    (Car.airStateStep C b p tag).game_seconds = b.game_seconds := by
  cases tag <;> rfl

@[simp] lemma airStateStep_cur_tick (C : Consts) (b : Car) (p tag : AirState) :
    (Car.airStateStep C b p tag).cur_tick = b.cur_tick := by
  cases tag <;> rfl

@[simp] lemma specApplyOverride_supersonic_time (e : ExtraPlayerInfo) (c : Car) :
    (specApplyOverride e c).supersonic_time = c.supersonic_time := rfl

@[simp] lemma specApplyOverride_boost_active_time (e : ExtraPlayerInfo) (c : Car) :
    (specApplyOverride e c).boost_active_time = c.boost_active_time := rfl

@[simp] lemma specApplyOverride_jump_time (e : ExtraPlayerInfo) (c : Car) :
    (specApplyOverride e c).jump_time = c.jump_time := rfl

@[simp] lemma specApplyOverride_is_jumping (e : ExtraPlayerInfo) (c : Car) :
    (specApplyOverride e c).is_jumping = c.is_jumping := rfl

@[simp] lemma specApplyOverride_has_jumped (e : ExtraPlayerInfo) (c : Car) :
    (specApplyOverride e c).has_jumped = c.has_jumped := rfl

@[simp] lemma specApplyOverride_air_time_since_jump (e : ExtraPlayerInfo) (c : Car) :
    (specApplyOverride e c).air_time_since_jump = c.air_time_since_jump := rfl

@[simp] lemma specApplyOverride_game_seconds (e : ExtraPlayerInfo) (c : Car) :
    (specApplyOverride e c).game_seconds = c.game_seconds := rfl

@[simp] lemma specApplyOverride_cur_tick (e : ExtraPlayerInfo) (c : Car) :
    (specApplyOverride e c).cur_tick = c.cur_tick := rfl

/-- `update` records the new tick index unconditionally. -/
@[simp] lemma update_cur_tick (C : Consts) (car : Car) (pI : PlayerInfo) (tick : ℤ)
    (extra : Option ExtraPlayerInfo) :
    (Car.update C car pI tick extra).cur_tick = tick := by
  cases extra <;>
    simp [Car.update, applyExtraChain_eq_spec, Car.updateBase]

/-- `update` advances the game clock by `TICK_TIME` per elapsed tick,
whatever the sign of the tick delta. -/
@[simp] lemma update_game_seconds (C : Consts) (car : Car) (pI : PlayerInfo) (tick : ℤ)
    (extra : Option ExtraPlayerInfo) :
    (Car.update C car pI tick extra).game_seconds
      = car.game_seconds + C.TICK_TIME * ((tick - car.cur_tick : ℤ) : ℚ) := by
  cases extra <;>
    simp [Car.update, applyExtraChain_eq_spec, Car.updateBase]

/-- The supersonic timer is decided by the straight-line part alone. -/
lemma update_supersonic_time (C : Consts) (car : Car) (pI : PlayerInfo) (tick : ℤ)
    (extra : Option ExtraPlayerInfo) :
    (Car.update C car pI tick extra).supersonic_time
      = (Car.updateBase C car pI tick).supersonic_time := by
  cases extra <;> simp [Car.update, applyExtraChain_eq_spec]

/-- The boost-active timer is decided by the straight-line part alone. -/
lemma update_boost_active_time (C : Consts) (car : Car) (pI : PlayerInfo) (tick : ℤ)
    (extra : Option ExtraPlayerInfo) :
    (Car.update C car pI tick extra).boost_active_time
      = (Car.updateBase C car pI tick).boost_active_time := by
  cases extra <;> simp [Car.update, applyExtraChain_eq_spec]

/-- `round` arithmetic behind the touch guard: once the recorded touch
timestamp is not in the future of the game clock, shifting the clock by the
next tick delta cannot make it look recent again. -/
lemma round_shift_nonneg (TT TPS g ts : ℚ) (k : ℤ) (hC : TT * TPS = 1)
    (hPast : 0 ≤ round ((g - ts) * TPS)) :
    ¬ (round ((g + TT * (k : ℚ) - ts) * TPS) < k) := by
  have h1 : (g + TT * (k : ℚ) - ts) * TPS = (g - ts) * TPS + (k : ℚ) * (TT * TPS) := by
    ring
  rw [hC, mul_one] at h1
  rw [h1, round_add_int]
  omega

/-! ### Claim C1 -/

/-- C1, counterexample.  The claim says that an update whose tick delta is
non-positive reports an error to the caller.  `Car.update` has no error path
at all (car.py lines 226-229 compute the delta and continue): at the concrete
stale input below, with `game_tick` equal to the last recorded tick index
(`ticks_elapsed = 0`), the update returns an ordinary successor state — the
tick index is re-recorded, the clock does not advance, the touch counter is
untouched — instead of reporting anything. -/
theorem c1_stale_absorbed_counterexample :
    (Car.update defaultConsts attachCar groundSample 0 none).cur_tick = 0 ∧
    (Car.update defaultConsts attachCar groundSample 0 none).game_seconds
      = attachCar.game_seconds ∧
    (Car.update defaultConsts attachCar groundSample 0 none).ball_touches
      = attachCar.ball_touches := by
  refine ⟨?_, ?_, ?_⟩ <;>
    simp [Car.update, Car.updateBase, Car.airStateStep, attachCar,
      Car.create_compat_car, groundSample, inputNone, defaultConsts,
      Car.detect_hitbox, compare_hitbox_shape]

/-- C1, amended: `Car.update` performs no validation of the tick delta.  A
call whose delta from the last recorded tick index is non-positive is
silently absorbed: the update proceeds normally, records the new tick index,
and advances the game clock by the (zero or negative) elapsed time. -/
theorem c1_stale_absorbed (C : Consts) (car : Car) (pI : PlayerInfo) (tick : ℤ)
    (extra : Option ExtraPlayerInfo) (_hStale : tick - car.cur_tick ≤ 0) :
    (Car.update C car pI tick extra).cur_tick = tick ∧
    (Car.update C car pI tick extra).game_seconds
      = car.game_seconds + C.TICK_TIME * ((tick - car.cur_tick : ℤ) : ℚ) :=
  ⟨update_cur_tick C car pI tick extra, update_game_seconds C car pI tick extra⟩

/-- C1, witness for the amended theorem: the stale input of the
counterexample satisfies the hypothesis, and the amended conclusion holds
there. -/
theorem c1_stale_absorbed_witness :
    (0 : ℤ) - attachCar.cur_tick ≤ 0 ∧
    ((Car.update defaultConsts attachCar groundSample 0 none).cur_tick = 0 ∧
     (Car.update defaultConsts attachCar groundSample 0 none).game_seconds
       = attachCar.game_seconds
         + defaultConsts.TICK_TIME * (((0 : ℤ) - attachCar.cur_tick : ℤ) : ℚ)) :=
  ⟨by simp [attachCar, Car.create_compat_car],
   c1_stale_absorbed defaultConsts attachCar groundSample 0 none
     (by simp [attachCar, Car.create_compat_car])⟩

/-! ### Claim C2 -/

/-- C2, counterexample.  The claim asserts that in every reachable state
`on_ground = true` implies `is_jumping = false` and
`air_time_since_jump = 0`.  The state reached by attaching on the ground and
then applying one update whose sample reports the `Jumping` air state
violates it: the jump timer is reset to 0, which is within the 6-tick grace
period, so `on_ground` is set `true` while `is_jumping` is set `true`
(car.py lines 289-294). -/
theorem c2_ground_invariant_counterexample :
    carJump1.on_ground = true ∧ carJump1.is_jumping = true := by
  simp [carJump1, attachCar, Car.update, Car.updateBase, Car.airStateStep,
    Car.create_compat_car, Car.on_ground, wheelCount, groundSample, jumpSample,
    inputNone, defaultConsts, Car.detect_hitbox, compare_hitbox_shape]

/-- C2, amended: after any update in which no wheel-contact override is
applied, `on_ground = true` implies that either `is_jumping = false` and
`air_time_since_jump = 0` (the `OnGround` branch), or the sample reported
`Jumping` and the car is inside the jump grace period: `is_jumping = true`
with `jump_time ≤ 6 · TICK_TIME`. -/
theorem c2_ground_invariant (C : Consts) (car : Car) (pI : PlayerInfo) (tick : ℤ)
    (extra : Option ExtraPlayerInfo) (hw : optWheels extra = none)
    (hog : (Car.update C car pI tick extra).on_ground = true) :
    ((Car.update C car pI tick extra).is_jumping = false ∧
      (Car.update C car pI tick extra).air_time_since_jump = 0) ∨
    ((Car.update C car pI tick extra).is_jumping = true ∧
      (Car.update C car pI tick extra).jump_time ≤ 6 * C.TICK_TIME) := by
  obtain ⟨hW, hJ, hA, hT⟩ :
      (Car.update C car pI tick extra).wheels_with_contact
        = (Car.airStateStep C (Car.updateBase C car pI tick) car.prev_air_state
            pI.air_state).wheels_with_contact ∧
      (Car.update C car pI tick extra).is_jumping
        = (Car.airStateStep C (Car.updateBase C car pI tick) car.prev_air_state
            pI.air_state).is_jumping ∧
      (Car.update C car pI tick extra).air_time_since_jump
        = (Car.airStateStep C (Car.updateBase C car pI tick) car.prev_air_state
            pI.air_state).air_time_since_jump ∧
      (Car.update C car pI tick extra).jump_time
        = (Car.airStateStep C (Car.updateBase C car pI tick) car.prev_air_state
            pI.air_state).jump_time := by
    cases extra with
    | none => exact ⟨rfl, rfl, rfl, rfl⟩
    | some e =>
        simp only [optWheels] at hw
        refine ⟨?_, ?_, ?_, ?_⟩ <;>
          simp [Car.update, applyExtraChain_eq_spec, specApplyOverride, hw]
  simp only [Car.on_ground, hW] at hog
  rw [hJ, hA, hT]
  rcases hstate : pI.air_state with _ | _ | _ | _ | _ <;> rw [hstate] at hog
  case OnGround =>
    exact Or.inl ⟨rfl, rfl⟩
  case Jumping =>
    refine Or.inr ⟨rfl, ?_⟩
    simp only [Car.airStateStep] at hog ⊢
    by_cases hj :
        (if car.prev_air_state = AirState.OnGround then 0
          else (Car.updateBase C car pI tick).jump_time) ≤ 6 * C.TICK_TIME
    · exact hj
    · simp [hj, wheelCount] at hog
  all_goals simp [Car.airStateStep, wheelCount] at hog

/-- C2, witness for the amended theorem: the counterexample input (attach on
ground, then a `Jumping` update with no override) satisfies both hypotheses,
and there the second disjunct holds. -/
theorem c2_ground_invariant_witness :
    optWheels (none : Option ExtraPlayerInfo) = none ∧
    (Car.update defaultConsts attachCar jumpSample 1 none).on_ground = true ∧
    (((Car.update defaultConsts attachCar jumpSample 1 none).is_jumping = false ∧
      (Car.update defaultConsts attachCar jumpSample 1 none).air_time_since_jump = 0) ∨
     ((Car.update defaultConsts attachCar jumpSample 1 none).is_jumping = true ∧
      (Car.update defaultConsts attachCar jumpSample 1 none).jump_time
        ≤ 6 * defaultConsts.TICK_TIME)) :=
  ⟨rfl,
   by
    simp [Car.update, Car.updateBase, Car.airStateStep, attachCar,
      Car.create_compat_car, Car.on_ground, wheelCount, groundSample, jumpSample,
      inputNone, defaultConsts, Car.detect_hitbox, compare_hitbox_shape],
   c2_ground_invariant defaultConsts attachCar jumpSample 1 none rfl
     (by
      simp [Car.update, Car.updateBase, Car.airStateStep, attachCar,
        Car.create_compat_car, Car.on_ground, wheelCount, groundSample, jumpSample,
        inputNone, defaultConsts, Car.detect_hitbox, compare_hitbox_shape])⟩

/-! ### Claim C3 -/

/-- The ball-touch counter after an update without override, as a function of
the sample's latest-touch record (car.py lines 231-239). -/
lemma update_ball_touches_none (C : Consts) (car : Car) (pI : PlayerInfo) (tick : ℤ) :
    (Car.update C car pI tick none).ball_touches
      = match pI.latest_touch with
        | some touch =>
            if round ((car.game_seconds + C.TICK_TIME * ((tick - car.cur_tick : ℤ) : ℚ)
                  - touch.game_seconds) * C.TICKS_PER_SECOND) < tick - car.cur_tick then
              car.ball_touches + 1
            else car.ball_touches
        | none => car.ball_touches := by
  simp [Car.update, Car.updateBase]

/-- C3: in a scenario where the latest-touch timestamp `ts` is detected in
the just-elapsed interval of the first update (hypothesis `hHit` is the
source's own guard), the touch counter increments by exactly 1; a second
update reporting the same timestamp does not increment it again (given the
tick/second constants are consistent and the recorded timestamp is not in
the future of the game clock, hypothesis `hPast`); any further update leaves
the counter unchanged or increments it by 1, never zeroing it; and the
explicit `reset_ball_touches` operation sets it to 0. -/
theorem c3_ball_touch_count (C : Consts) (car : Car) (pi1 pi2 pi3 : PlayerInfo)
    (t1 t2 t3 : ℤ) (ts : ℚ)
    (hC : C.TICK_TIME * C.TICKS_PER_SECOND = 1)
    (h1 : pi1.latest_touch = some ⟨ts⟩)
    (h2 : pi2.latest_touch = some ⟨ts⟩)
    (hHit : round ((car.game_seconds + C.TICK_TIME * ((t1 - car.cur_tick : ℤ) : ℚ) - ts)
        * C.TICKS_PER_SECOND) < t1 - car.cur_tick)
    (hPast : 0 ≤ round (((Car.update C car pi1 t1 none).game_seconds - ts)
        * C.TICKS_PER_SECOND)) :
    (Car.update C car pi1 t1 none).ball_touches = car.ball_touches + 1 ∧
    (Car.update C (Car.update C car pi1 t1 none) pi2 t2 none).ball_touches
      = (Car.update C car pi1 t1 none).ball_touches ∧
    ((Car.update C (Car.update C car pi1 t1 none) pi3 t3 none).ball_touches
        = (Car.update C car pi1 t1 none).ball_touches ∨
     (Car.update C (Car.update C car pi1 t1 none) pi3 t3 none).ball_touches
        = (Car.update C car pi1 t1 none).ball_touches + 1) ∧
    (Car.reset_ball_touches (Car.update C car pi1 t1 none)).ball_touches = 0 := by
  refine ⟨?_, ?_, ?_, rfl⟩
  · have e1 := update_ball_touches_none C car pi1 t1
    rw [e1, h1]
    exact if_pos hHit
  · have e2 := update_ball_touches_none C (Car.update C car pi1 t1 none) pi2 t2
    rw [e2, h2]
    simp only [update_cur_tick]
    exact if_neg
      (round_shift_nonneg C.TICK_TIME C.TICKS_PER_SECOND
        (Car.update C car pi1 t1 none).game_seconds ts (t2 - t1) hC hPast)
  · have e3 := update_ball_touches_none C (Car.update C car pi1 t1 none) pi3 t3
    rw [e3]
    cases h3 : pi3.latest_touch with
    | none => exact Or.inl rfl
    | some tch =>
        dsimp only
        by_cases hc :
            round (((Car.update C car pi1 t1 none).game_seconds
                  + C.TICK_TIME * ((t3 - (Car.update C car pi1 t1 none).cur_tick : ℤ) : ℚ)
                  - tch.game_seconds) * C.TICKS_PER_SECOND)
              < t3 - (Car.update C car pi1 t1 none).cur_tick
        · exact Or.inr (if_pos hc)
        · exact Or.inl (if_neg hc)

/-- C3, witness: attach at tick 0, first update at tick 2 with a touch at
game time 1/120 (one tick ago: detected), second update at tick 4 with the
same timestamp (not re-counted), a third touch-free update, and a reset. -/
theorem c3_ball_touch_count_witness :
    round ((attachCar.game_seconds
          + defaultConsts.TICK_TIME * (((2 : ℤ) - attachCar.cur_tick : ℤ) : ℚ) - 1/120)
        * defaultConsts.TICKS_PER_SECOND) < (2 : ℤ) - attachCar.cur_tick ∧
    0 ≤ round (((Car.update defaultConsts attachCar touchSample 2 none).game_seconds - 1/120)
        * defaultConsts.TICKS_PER_SECOND) ∧
    ((Car.update defaultConsts attachCar touchSample 2 none).ball_touches
        = attachCar.ball_touches + 1 ∧
     (Car.update defaultConsts (Car.update defaultConsts attachCar touchSample 2 none)
        touchSample 4 none).ball_touches
        = (Car.update defaultConsts attachCar touchSample 2 none).ball_touches ∧
     ((Car.update defaultConsts (Car.update defaultConsts attachCar touchSample 2 none)
          groundSample 5 none).ball_touches
          = (Car.update defaultConsts attachCar touchSample 2 none).ball_touches ∨
      (Car.update defaultConsts (Car.update defaultConsts attachCar touchSample 2 none)
          groundSample 5 none).ball_touches
          = (Car.update defaultConsts attachCar touchSample 2 none).ball_touches + 1) ∧
     (Car.reset_ball_touches
        (Car.update defaultConsts attachCar touchSample 2 none)).ball_touches = 0) :=
  ⟨by norm_num [attachCar, Car.create_compat_car, defaultConsts, groundSample, inputNone],
   by norm_num [attachCar, Car.create_compat_car, defaultConsts, groundSample, inputNone],
   c3_ball_touch_count defaultConsts attachCar touchSample touchSample groundSample
     2 4 5 (1/120)
     (by norm_num [defaultConsts])
     rfl
     rfl
     (by norm_num [attachCar, Car.create_compat_car, defaultConsts, groundSample, inputNone])
     (by norm_num [attachCar, Car.create_compat_car, defaultConsts, groundSample, inputNone])⟩

/-! ### Claim C4 -/

/-- C4: the boost-active timer (car.py lines 251-261).  If it is running
(> 0), the input no longer requests boost and the accumulated time has
reached the minimum boost-engagement duration, it resets to 0; if it is
running otherwise (input still boosting, or below the minimum duration), it
grows by `time_elapsed`; if it is stopped (= 0) and the input requests
boost, it starts at exactly `time_elapsed`, not at 0. -/
theorem c4_boost_active_timer (C : Consts) (car : Car) (pI : PlayerInfo) (tick : ℤ)
    (extra : Option ExtraPlayerInfo) :
    (0 < car.boost_active_time → pI.last_input.boost = false →
      C.MIN_BOOST_TIME ≤ car.boost_active_time →
      (Car.update C car pI tick extra).boost_active_time = 0) ∧
    (0 < car.boost_active_time →
      (pI.last_input.boost = true ∨ car.boost_active_time < C.MIN_BOOST_TIME) →
      (Car.update C car pI tick extra).boost_active_time
        = car.boost_active_time + C.TICK_TIME * ((tick - car.cur_tick : ℤ) : ℚ)) ∧
    (car.boost_active_time = 0 → pI.last_input.boost = true →
      (Car.update C car pI tick extra).boost_active_time
        = C.TICK_TIME * ((tick - car.cur_tick : ℤ) : ℚ)) := by
  have hb := update_boost_active_time C car pI tick extra
  refine ⟨fun hpos hoff hmin => ?_, fun hpos hgrow => ?_, fun hzero hon => ?_⟩ <;>
    rw [hb] <;> simp only [Car.updateBase]
  · rw [if_pos hpos, if_pos ⟨hoff, hmin⟩]
  · rw [if_pos hpos, if_neg ?_]
    rintro ⟨hoff, hmin⟩
    rcases hgrow with hon | hlt
    · rw [hon] at hoff; exact Bool.noConfusion hoff
    · exact absurd hmin (not_le.mpr hlt)
  · rw [if_neg (by rw [hzero]; exact lt_irrefl 0), if_pos hon]

/-- C4, witness: three concrete inputs exercise the three cases — a car with
a 1 s boost timer and no boost input resets to 0; the same car with boost
held grows by one tick; a car with a stopped timer and boost input starts at
exactly one tick of time. -/
theorem c4_boost_active_timer_witness :
    0 < carBoost.boost_active_time ∧
    defaultConsts.MIN_BOOST_TIME ≤ carBoost.boost_active_time ∧
    (Car.update defaultConsts carBoost groundSample 1 none).boost_active_time = 0 ∧
    (Car.update defaultConsts carBoost boostSample 1 none).boost_active_time
      = carBoost.boost_active_time
        + defaultConsts.TICK_TIME * (((1 : ℤ) - carBoost.cur_tick : ℤ) : ℚ) ∧
    attachCar.boost_active_time = 0 ∧
    (Car.update defaultConsts attachCar boostSample 1 none).boost_active_time
      = defaultConsts.TICK_TIME * (((1 : ℤ) - attachCar.cur_tick : ℤ) : ℚ) :=
  ⟨by norm_num [carBoost],
   by norm_num [carBoost, defaultConsts],
   (c4_boost_active_timer defaultConsts carBoost groundSample 1 none).1
     (by norm_num [carBoost]) rfl (by norm_num [carBoost, defaultConsts]),
   (c4_boost_active_timer defaultConsts carBoost boostSample 1 none).2.1
     (by norm_num [carBoost]) (Or.inl rfl),
   by norm_num [attachCar, Car.create_compat_car],
   (c4_boost_active_timer defaultConsts attachCar boostSample 1 none).2.2
     (by norm_num [attachCar, Car.create_compat_car]) rfl⟩

/-! ### Claim C5 -/

/-- The jump timer is decided by the straight-line part followed by the
air-state transition; the override channel does not touch it. -/
lemma update_jump_time (C : Consts) (car : Car) (pI : PlayerInfo) (tick : ℤ)
    (extra : Option ExtraPlayerInfo) :
    (Car.update C car pI tick extra).jump_time
      = (Car.airStateStep C (Car.updateBase C car pI tick) car.prev_air_state
          pI.air_state).jump_time := by
  cases extra <;> simp [Car.update, applyExtraChain_eq_spec]

/-- C5, counterexample.  The claim asserts that after an OnGround → Jumping
transition, `jump_time` increases monotonically across subsequent updates as
long as `has_jumped` or `is_jumping` stays true.  In the concrete sequence
below the transition happens at update 1 (`jump_time` resets to 0), the
sample keeps reporting `has_jumped = true` throughout, yet `jump_time`
falls from 1/120 back to 0 at update 3, because a second OnGround → Jumping
transition resets it again (car.py lines 290-291). -/
theorem c5_jump_time_counterexample :
    attachCar.prev_air_state = AirState.OnGround ∧
    jumpSample.air_state = AirState.Jumping ∧
    carJump1.jump_time = 0 ∧ carJump1.has_jumped = true ∧
    carJump2.jump_time = 1/120 ∧ carJump2.has_jumped = true ∧
    carJump3.jump_time = 0 ∧ carJump3.has_jumped = true := by
  refine ⟨rfl, rfl, ?_, ?_, ?_, ?_, ?_, ?_⟩ <;>
    simp [carJump1, carJump2, carJump3, attachCar, Car.update, Car.updateBase,
      Car.airStateStep, Car.create_compat_car, groundSample, jumpSample,
      groundJumpedSample, inputNone, defaultConsts, Car.detect_hitbox,
      compare_hitbox_shape]

/-- C5, amended: an update whose sample reports `Jumping` right after a
recorded `OnGround` state resets `jump_time` to 0; and across any update
with a positive tick delta during which `has_jumped` or `is_jumping` remains
true, `jump_time` strictly increases — unless that update is itself another
OnGround → Jumping transition, which resets the timer to 0 again. -/
theorem c5_jump_time (C : Consts) (car : Car) (pI : PlayerInfo) (tick : ℤ)
    (extra : Option ExtraPlayerInfo) :
    (car.prev_air_state = AirState.OnGround → pI.air_state = AirState.Jumping →
      (Car.update C car pI tick extra).jump_time = 0) ∧
    ((pI.has_jumped = true ∨ car.is_jumping = true) →
      ¬(car.prev_air_state = AirState.OnGround ∧ pI.air_state = AirState.Jumping) →
      0 < C.TICK_TIME → 1 ≤ tick - car.cur_tick →
      car.jump_time < (Car.update C car pI tick extra).jump_time) := by
  have hj := update_jump_time C car pI tick extra
  constructor
  · intro hprev hstate
    rw [hj, hstate]
    simp [Car.airStateStep, hprev]
  · intro hflag hNot hTT hk
    have hflag' : (pI.has_jumped || car.is_jumping) = true := by
      rcases hflag with h | h <;> simp [h]
    have hbase : (Car.updateBase C car pI tick).jump_time
        = car.jump_time + C.TICK_TIME * ((tick - car.cur_tick : ℤ) : ℚ) := by
      simp [Car.updateBase, hflag']
    have hkq : (0 : ℚ) < ((tick - car.cur_tick : ℤ) : ℚ) := by
      exact_mod_cast (by omega : (0 : ℤ) < tick - car.cur_tick)
    have hpos := mul_pos hTT hkq
    rw [hj]
    rcases hstate : pI.air_state with _ | _ | _ | _ | _ <;>
      simp only [Car.airStateStep]
    · rw [hbase]; linarith
    · rw [if_neg fun hp => hNot ⟨hp, hstate⟩, hbase]; linarith
    · rw [hbase]; linarith
    · rw [hbase]; linarith
    · rw [hbase]; linarith

/-- C5, witness for the amended theorem: the transition update resets the
timer to 0, and the next `Jumping` update (no new transition, flags still
true, one tick elapsed) strictly increases it. -/
theorem c5_jump_time_witness :
    (attachCar.prev_air_state = AirState.OnGround ∧
     jumpSample.air_state = AirState.Jumping ∧
     (Car.update defaultConsts attachCar jumpSample 1 none).jump_time = 0) ∧
    (jumpSample.has_jumped = true ∧
     ¬(carJump1.prev_air_state = AirState.OnGround ∧
        jumpSample.air_state = AirState.Jumping) ∧
     0 < defaultConsts.TICK_TIME ∧ 1 ≤ (2 : ℤ) - carJump1.cur_tick ∧
     carJump1.jump_time < (Car.update defaultConsts carJump1 jumpSample 2 none).jump_time) :=
  ⟨⟨rfl, rfl,
    (c5_jump_time defaultConsts attachCar jumpSample 1 none).1 rfl rfl⟩,
   ⟨rfl,
    by
      rintro ⟨hp, -⟩
      have hprev : carJump1.prev_air_state = AirState.Jumping := rfl
      rw [hprev] at hp
      exact AirState.noConfusion hp,
    by norm_num [defaultConsts],
    by norm_num [carJump1],
    (c5_jump_time defaultConsts carJump1 jumpSample 2 none).2 (Or.inl rfl)
      (by
        rintro ⟨hp, -⟩
        have hprev : carJump1.prev_air_state = AirState.Jumping := rfl
        rw [hprev] at hp
        exact AirState.noConfusion hp)
      (by norm_num [defaultConsts])
      (by norm_num [carJump1])⟩⟩

/-! ### Claim C6 -/

/-- C6: the supersonic timer (car.py lines 245-248) grows by exactly
`time_elapsed` while the sample reports supersonic, and is exactly 0 after
any update whose sample does not; hence it is monotone while the flag holds
and the elapsed time is non-negative. -/
theorem c6_supersonic_timer (C : Consts) (car : Car) (pI : PlayerInfo) (tick : ℤ)
    (extra : Option ExtraPlayerInfo) :
    (pI.is_supersonic = true →
      (Car.update C car pI tick extra).supersonic_time
        = car.supersonic_time + C.TICK_TIME * ((tick - car.cur_tick : ℤ) : ℚ)) ∧
    (pI.is_supersonic = false →
      (Car.update C car pI tick extra).supersonic_time = 0) ∧
    (pI.is_supersonic = true → 0 ≤ C.TICK_TIME * ((tick - car.cur_tick : ℤ) : ℚ) →
      car.supersonic_time ≤ (Car.update C car pI tick extra).supersonic_time) := by
  have hs := update_supersonic_time C car pI tick extra
  refine ⟨fun h => ?_, fun h => ?_, fun h hte => ?_⟩ <;>
    rw [hs] <;> simp [Car.updateBase, h]
  push_cast at hte
  linarith

/-- C6, witness: one supersonic update grows the timer by one tick of time;
one non-supersonic update zeroes it; monotonicity holds at the first
input. -/
theorem c6_supersonic_timer_witness :
    ((Car.update defaultConsts attachCar supersonicSample 1 none).supersonic_time
      = attachCar.supersonic_time
        + defaultConsts.TICK_TIME * (((1 : ℤ) - attachCar.cur_tick : ℤ) : ℚ)) ∧
    ((Car.update defaultConsts attachCar groundSample 1 none).supersonic_time = 0) ∧
    (attachCar.supersonic_time
      ≤ (Car.update defaultConsts attachCar supersonicSample 1 none).supersonic_time) :=
  ⟨(c6_supersonic_timer defaultConsts attachCar supersonicSample 1 none).1 rfl,
   (c6_supersonic_timer defaultConsts attachCar groundSample 1 none).2.1 rfl,
   (c6_supersonic_timer defaultConsts attachCar supersonicSample 1 none).2.2 rfl
     (by norm_num [attachCar, Car.create_compat_car, defaultConsts])⟩

/-! ### Claim C7 -/

/-- The handbrake after an update without override: the ramped value clamped
into [0,1] (car.py lines 263-267). -/
lemma update_handbrake_none (C : Consts) (car : Car) (pI : PlayerInfo) (tick : ℤ) :
    (Car.update C car pI tick none).handbrake
      = min 1 (max 0
          (if pI.last_input.handbrake then
            car.handbrake + C.POWERSLIDE_RISE_RATE * (C.TICK_TIME * ((tick - car.cur_tick : ℤ) : ℚ))
          else
            car.handbrake - C.POWERSLIDE_FALL_RATE * (C.TICK_TIME * ((tick - car.cur_tick : ℤ) : ℚ)))) := by
  simp [Car.update, Car.updateBase]

/-- C7: starting from any state whose handbrake lies in [0,1], after any
sequence of updates (arbitrary input flags and tick deltas, no override
supplied) the handbrake still lies in [0,1]. -/
theorem c7_handbrake_bounds (C : Consts) (car : Car) (l : List (PlayerInfo × ℤ))
    (h0 : 0 ≤ car.handbrake) (h1 : car.handbrake ≤ 1) :
    0 ≤ (Car.updates C car l).handbrake ∧ (Car.updates C car l).handbrake ≤ 1 := by
  induction l generalizing car with
  | nil => exact ⟨h0, h1⟩
  | cons p rest ih =>
      obtain ⟨pI, t⟩ := p
      have hcl := update_handbrake_none C car pI t
      exact ih (Car.update C car pI t none)
        (by rw [hcl]; exact le_min zero_le_one (le_max_left _ _))
        (by rw [hcl]; exact min_le_left _ _)

/-- C7, witness: the attached state has handbrake 0 ∈ [0,1], and after a
two-update sequence the bounds still hold. -/
theorem c7_handbrake_bounds_witness :
    0 ≤ attachCar.handbrake ∧ attachCar.handbrake ≤ 1 ∧
    (0 ≤ (Car.updates defaultConsts attachCar
        [(jumpSample, 1), (groundSample, 3)]).handbrake ∧
     (Car.updates defaultConsts attachCar
        [(jumpSample, 1), (groundSample, 3)]).handbrake ≤ 1) :=
  ⟨by norm_num [attachCar, Car.create_compat_car],
   by norm_num [attachCar, Car.create_compat_car],
   c7_handbrake_bounds defaultConsts attachCar [(jumpSample, 1), (groundSample, 3)]
     (by norm_num [attachCar, Car.create_compat_car])
     (by norm_num [attachCar, Car.create_compat_car])⟩

/-! ### Claim C8 -/

/-- C8: supplying an override record makes the update equal to the update
without an override followed by the spec's sparse field-by-field patch
(`specApplyOverride`): each present field — wheel contact tuple, handbrake,
touch count, bump-victim id with its cooldown (cleared when the cooldown is
not positive), autoflip flag/timer/direction — overwrites the just-computed
value, and each absent field leaves it unchanged. -/
theorem c8_override_channel (C : Consts) (car : Car) (pI : PlayerInfo) (tick : ℤ)
    (e : ExtraPlayerInfo) :
    Car.update C car pI tick (some e)
      = specApplyOverride e (Car.update C car pI tick none) := by
  simp only [Car.update]
  rw [applyExtraChain_eq_spec]
  rfl

/-! ### Claim C9 -/

/-- C9: the hitbox classifier returns the first of the fixed known categories
whose reference dimensions all match the measured shape within the tolerance
(`List.find?` over the reference table, in source order), and the designated
default category (`OCTANE`) when no reference matches. -/
theorem c9_hitbox_classifier (tol : ℚ) (shape : BoxShape) (off : Vec3) :
    Car.detect_hitbox tol shape off = specClassifyHitbox tol shape := by
  simp only [Car.detect_hitbox, specClassifyHitbox, hitboxReferences, List.find?]
  repeat' split <;> simp_all

/-! ### Claim C10 -/

/-- C10: after any update in which no wheel-contact override is applied, the
four wheel-contact flags are pairwise equal, because every air-state branch
assigns them through the `on_ground` setter, which writes one boolean to all
four wheels (car.py lines 113-115 and 284-303). -/
theorem c10_wheel_uniformity (C : Consts) (car : Car) (pI : PlayerInfo) (tick : ℤ)
    (extra : Option ExtraPlayerInfo) (hw : optWheels extra = none) :
    ((Car.update C car pI tick extra).wheels_with_contact.1
      = (Car.update C car pI tick extra).wheels_with_contact.2.1) ∧
    ((Car.update C car pI tick extra).wheels_with_contact.1
      = (Car.update C car pI tick extra).wheels_with_contact.2.2.1) ∧
    ((Car.update C car pI tick extra).wheels_with_contact.1
      = (Car.update C car pI tick extra).wheels_with_contact.2.2.2) := by
  have hW : (Car.update C car pI tick extra).wheels_with_contact
      = (Car.airStateStep C (Car.updateBase C car pI tick) car.prev_air_state
          pI.air_state).wheels_with_contact := by
    cases extra with
    | none => rfl
    | some e =>
        simp only [optWheels] at hw
        simp [Car.update, applyExtraChain_eq_spec, specApplyOverride, hw]
  rw [hW]
  rcases pI.air_state with _ | _ | _ | _ | _ <;> simp [Car.airStateStep]

/-- C10, witness: a concrete override-free update (the `Jumping` update of
the C2 scenario) has all four wheel flags equal. -/
theorem c10_wheel_uniformity_witness :
    optWheels (none : Option ExtraPlayerInfo) = none ∧
    (((Car.update defaultConsts attachCar jumpSample 1 none).wheels_with_contact.1
      = (Car.update defaultConsts attachCar jumpSample 1 none).wheels_with_contact.2.1) ∧
     ((Car.update defaultConsts attachCar jumpSample 1 none).wheels_with_contact.1
      = (Car.update defaultConsts attachCar jumpSample 1 none).wheels_with_contact.2.2.1) ∧
     ((Car.update defaultConsts attachCar jumpSample 1 none).wheels_with_contact.1
      = (Car.update defaultConsts attachCar jumpSample 1 none).wheels_with_contact.2.2.2)) :=
  ⟨rfl, c10_wheel_uniformity defaultConsts attachCar jumpSample 1 none rfl⟩

end RLGymCompat
